import Mathlib

/-!
Shallow embedding of the Environment Configuration & Validation Engine of the
repository: the Dart classes `EnvironmentService`, `SecretsManager`,
`EnvironmentValidator` (with its rule classes) from
`lib/core/services/environment_service.dart`,
`lib/core/services/secrets_manager.dart`,
`lib/core/services/environment_validator.dart`, and `SecurityPolicyManager`
with its `SecurityPolicy` classes.

Conventions of the embedding:
* A `RawConfig` / merged environment map is an association list
  `List (String × String)`; Dart `Map<String, String>` preserves insertion
  order and has unique keys, and lookups are first-match lookups.
* Dart strings are Lean `String`s; `toLowerCase`, `contains`, `startsWith`
  are re-implemented over the character list so that they evaluate inside
  the kernel (the keys and patterns involved are ASCII).
* The stateful parts (`_isInitialized`, `_testEnvironment`, the loaded
  `dotenv` store of the external `flutter_dotenv` package) are modelled by an
  explicit state record `EnvState`; methods that can throw return `Except`.
* The sha256 digest applied by `generateSecureHash` /
  `generateEnvironmentHash` comes from the external `crypto` package and is a
  pure total function of the string it is fed; the embedding models the exact
  string fed to the digest (`secureHashInput` / `environmentHashInput`),
  which is what every claim about the hash is about.
-/

/-- Lower-case an ASCII character, as Dart `toLowerCase` does on the ASCII
range (all keys and patterns in the engine are ASCII). -/
def lowerChar (c : Char) : Char :=
  if 'A' ≤ c ∧ c ≤ 'Z' then Char.ofNat (c.toNat + 32) else c

/-- Dart `String.toLowerCase`, restricted to the ASCII range. -/
def lowerStr (s : String) : String :=
  ⟨s.data.map lowerChar⟩

/-- Helper for `strContains`: is `pat` a contiguous sublist of the second
argument? -/
def containsSub (pat : List Char) : List Char → Bool
  | [] => pat.isEmpty
  | c :: cs => pat.isPrefixOf (c :: cs) || containsSub pat cs

/-- Dart `String.contains` for string patterns. -/
def strContains (s pat : String) : Bool :=
  containsSub pat.data s.data

/-- Dart `String.startsWith` for string patterns. -/
def strStartsWith (s pat : String) : Bool :=
  pat.data.isPrefixOf s.data

/-- Decimal-digit run parser used by `intTryParse`. -/
def parseDigits (l : List Char) : Option Nat :=
  if l ≠ [] ∧ l.all (fun c => c.isDigit) then
    some (l.foldl (fun n c => 10 * n + (c.toNat - 48)) 0)
  else none

/-- Dart `int.tryParse` on its decimal forms: an optional sign followed by
decimal digits (Dart additionally accepts surrounding whitespace and `0x`
hex literals; no configuration value in any claim uses those forms). -/
def intTryParse (s : String) : Option Int :=
  match s.data with
  | '-' :: rest => (parseDigits rest).map (fun n => -(n : Int))
  | '+' :: rest => (parseDigits rest).map (fun n => (n : Int))
  | l => (parseDigits l).map (fun n => (n : Int))

/-- A merged configuration snapshot: keys to values, insertion-ordered. -/
abbrev Config := List (String × String)

/-- Map lookup with a fallback: the value stored under `key` (even if it is
the empty string), else `default`.  This is `map[key] ?? default`, the
behaviour of both `_testEnvironment![key] ?? defaultValue` and of
`dotenv.get(key, fallback: defaultValue)` once the store is loaded. -/
def lookupEnv (cfg : Config) (key default : String) : String :=
  (List.lookup key cfg).getD default

/-- `EnvironmentService.currentEnvironment`: `_getEnv('ENVIRONMENT',
'development')`, read over the active snapshot.  Note: the raw stored string
is returned verbatim; there is no parsing against the environment enum. -/
def EnvironmentService.currentEnvironment (cfg : Config) : String :=
  lookupEnv cfg "ENVIRONMENT" "development"

/-- `EnvironmentService.getBool` / `_getBool` (they have the same
value-level behaviour): empty or missing value gives the default, otherwise
membership of the lower-cased value in `['true', '1', 'yes', 'on']`. -/
def EnvironmentService.getBool (cfg : Config) (key : String) (d : Bool) : Bool :=
  let w := lowerStr (lookupEnv cfg key "")
  if w = "" then d else ["true", "1", "yes", "on"].contains w

/-- `EnvironmentService.getInt` / `_getInt`: empty or missing value gives the
default, otherwise `int.tryParse(value) ?? defaultValue`. -/
def EnvironmentService.getInt (cfg : Config) (key : String) (d : Int) : Int :=
  let v := lookupEnv cfg key ""
  if v = "" then d else (intTryParse v).getD d

/-- `EnvironmentService.isDebug`: `_getBool('IS_DEBUG', true)`. -/
def EnvironmentService.isDebug (cfg : Config) : Bool :=
  EnvironmentService.getBool cfg "IS_DEBUG" true

/-- `EnvironmentService.enableLogging`: `_getBool('ENABLE_LOGGING', true)`. -/
def EnvironmentService.enableLogging (cfg : Config) : Bool :=
  EnvironmentService.getBool cfg "ENABLE_LOGGING" true

/-- `EnvironmentService.baseUrl`: `_getEnv('API_BASE_URL',
'https://dummyjson.com')`. -/
def EnvironmentService.baseUrl (cfg : Config) : String :=
  lookupEnv cfg "API_BASE_URL" "https://dummyjson.com"

/-- `EnvironmentService.demoUsername`: `_getEnv('DEMO_USERNAME', '')`. -/
def EnvironmentService.demoUsername (cfg : Config) : String :=
  lookupEnv cfg "DEMO_USERNAME" ""

/-- `EnvironmentService.demoPassword`: `_getEnv('DEMO_PASSWORD', '')`. -/
def EnvironmentService.demoPassword (cfg : Config) : String :=
  lookupEnv cfg "DEMO_PASSWORD" ""

/-- `EnvironmentService.requireHttps`: `_getBool('REQUIRE_HTTPS', false)`. -/
def EnvironmentService.requireHttps (cfg : Config) : Bool :=
  EnvironmentService.getBool cfg "REQUIRE_HTTPS" false

/-- `EnvironmentService.sessionTimeoutHours`: `_getInt('SESSION_TIMEOUT_HOURS',
24)`. -/
def EnvironmentService.sessionTimeoutHours (cfg : Config) : Int :=
  EnvironmentService.getInt cfg "SESSION_TIMEOUT_HOURS" 24

/-- `EnvironmentService.isSensitiveKey`: its `sensitivePatterns` list has
eight patterns, three more than `SecretsManager`'s. -/
def EnvironmentService.isSensitiveKey (key : String) : Bool :=
  ["password", "secret", "key", "token", "credential",
   "auth", "private", "confidential"].any
    (fun pattern => strContains (lowerStr key) pattern)

/-- The string `envString` that `EnvironmentService.generateEnvironmentHash`
feeds to sha256: the `'key=value'` renderings of the entries whose key is not
`EnvironmentService`-sensitive, in map iteration order, joined with `'|'`.
The hex digest itself is a pure total function of this string applied by the
external `crypto` package. -/
def EnvironmentService.environmentHashInput (cfg : Config) : String :=
  String.intercalate "|"
    ((cfg.filter (fun e => !EnvironmentService.isSensitiveKey e.1)).map
      (fun e => e.1 ++ "=" ++ e.2))

/-- `SecretsManager._sensitivePatterns`: a constant map from pattern to the
redaction sentinel. -/
def SecretsManager.sensitivePatterns : List (String × String) :=
  [("password", "***REDACTED***"), ("secret", "***REDACTED***"),
   ("key", "***REDACTED***"), ("token", "***REDACTED***"),
   ("credential", "***REDACTED***")]

/-- `SecretsManager.isSensitiveKey`: some pattern of `_sensitivePatterns` is
contained in the lower-cased key. -/
def SecretsManager.isSensitiveKey (key : String) : Bool :=
  SecretsManager.sensitivePatterns.any
    (fun p => strContains (lowerStr key) p.1)

/-- `SecretsManager._getPattern`: the first pattern contained in the
lower-cased key, else `'default'`. -/
def SecretsManager.getPattern (key : String) : String :=
  match SecretsManager.sensitivePatterns.find?
      (fun p => strContains (lowerStr key) p.1) with
  | some p => p.1
  | none => "default"

/-- `SecretsManager.getSecureValue`: the map value under the found pattern
(`?? '***REDACTED***'`) for a sensitive key, the value unchanged otherwise. -/
def SecretsManager.getSecureValue (key value : String) : String :=
  if SecretsManager.isSensitiveKey key then
    (List.lookup (SecretsManager.getPattern key)
      SecretsManager.sensitivePatterns).getD "***REDACTED***"
  else value

/-- `SecretsManager.getAllSecureValues` applied to a snapshot: `getSecureValue`
mapped over every entry. -/
def SecretsManager.getAllSecureValues (cfg : Config) : Config :=
  cfg.map (fun e => (e.1, SecretsManager.getSecureValue e.1 e.2))

/-- The string `cleanValues` that `SecretsManager.generateSecureHash` feeds to
sha256: the `'key=value'` renderings of the entries whose key is not
`SecretsManager`-sensitive, in map iteration order, joined with `'|'`. -/
def SecretsManager.secureHashInput (cfg : Config) : String :=
  String.intercalate "|"
    ((cfg.filter (fun e => !SecretsManager.isSensitiveKey e.1)).map
      (fun e => e.1 ++ "=" ++ e.2))

/-- Lexicographic character-code comparison used by `sortStrings`. -/
def charsLe : List Char → List Char → Bool
  | [], _ => true
  | _ :: _, [] => false
  | a :: as, b :: bs => if a = b then charsLe as bs else decide (a < b)

/-- Insertion into a sorted list of strings. -/
def insertSorted (s : String) : List String → List String
  | [] => [s]
  | t :: ts => if charsLe s.data t.data then s :: t :: ts else t :: insertSorted s ts

/-- Insertion sort on strings. -/
def sortStrings : List String → List String
  | [] => []
  | s :: ss => insertSorted s (sortStrings ss)

/-- Modelled from the spec: the hash-computation input as section 4.5 of the
spec describes it — the *sorted*, `key=value`-joined representation of the
non-sensitive entries.  The source has no such sorting step; this definition
exists only to be compared against `SecretsManager.secureHashInput`. -/
def specStableHashInput (cfg : Config) : String :=
  String.intercalate "|"
    (sortStrings ((cfg.filter (fun e => !SecretsManager.isSensitiveKey e.1)).map
      (fun e => e.1 ++ "=" ++ e.2)))

/-- The `ValidationResult` value class. -/
structure ValidationResult where
  isValid : Bool
  errors : List String
  warnings : List String
deriving DecidableEq

/-- `RequiredKeyRule.validate`, as a function of the fetched value. -/
def requiredKeyCheck (key v : String) : ValidationResult :=
  if v = "" then
    ⟨false, ["Required environment variable " ++ key ++ " is missing"], []⟩
  else ⟨true, [], []⟩

/-- `EnumRule.validate`, as a function of the fetched value.  An empty value
yields `isValid: false` with no errors. -/
def enumCheck (key : String) (allowed : List String) (v : String) : ValidationResult :=
  if v = "" then ⟨false, [], []⟩
  else if allowed.contains v then ⟨true, [], []⟩
  else ⟨false, [key ++ " must be one of: " ++ String.intercalate ", " allowed
                ++ ". Got: " ++ v], []⟩

/-- Modelled from the spec (and the Dart SDK `Uri` class, which is external to
the repository): `UrlFormatRule` accepts a value iff `Uri.parse` yields a
scheme of `http` or `https` and a non-empty host — here: the value starts
with `http://` or `https://` and the authority segment that follows is
non-empty. -/
def urlValid (v : String) : Bool :=
  let hostNonempty := fun (rest : List Char) =>
    match rest with
    | [] => false
    | c :: _ => !(c = '/' || c = ':' || c = '?' || c = '#')
  (strStartsWith v "http://" && hostNonempty (v.data.drop 7)) ||
  (strStartsWith v "https://" && hostNonempty (v.data.drop 8))

/-- `UrlFormatRule.validate`, as a function of the fetched value. -/
def urlFormatCheck (key v : String) : ValidationResult :=
  if v = "" then ⟨false, [], []⟩
  else if urlValid v then ⟨true, [], []⟩
  else ⟨false, ["Invalid URL format for " ++ key ++ ": " ++ v], []⟩

/-- `PositiveIntegerRule.validate`, as a function of the fetched value. -/
def positiveIntegerCheck (key v : String) : ValidationResult :=
  if v = "" then ⟨false, [], []⟩
  else
    match intTryParse v with
    | some n =>
        if n > 0 then ⟨true, [], []⟩
        else ⟨false, [key ++ " must be a positive integer. Got: " ++ v], []⟩
    | none => ⟨false, [key ++ " must be a positive integer. Got: " ++ v], []⟩

/-- `BooleanRule.validate`, as a function of the fetched value. -/
def booleanCheck (key v : String) : ValidationResult :=
  if v = "" then ⟨false, [], []⟩
  else if ["true", "false", "1", "0", "yes", "no", "on", "off"].contains (lowerStr v) then
    ⟨true, [], []⟩
  else ⟨false, [key ++ " must be a boolean value. Got: " ++ v], []⟩

/-- `EnvironmentValidator._validationRules`, run over a snapshot: the nine
registered rules, in registration order, each fetching its value with
`EnvironmentService.getEnv(key)`. -/
def EnvironmentValidator.ruleResults (cfg : Config) : List ValidationResult :=
  [requiredKeyCheck "ENVIRONMENT" (lookupEnv cfg "ENVIRONMENT" ""),
   enumCheck "ENVIRONMENT" ["development", "staging", "production", "test"]
     (lookupEnv cfg "ENVIRONMENT" ""),
   requiredKeyCheck "API_BASE_URL" (lookupEnv cfg "API_BASE_URL" ""),
   urlFormatCheck "API_BASE_URL" (lookupEnv cfg "API_BASE_URL" ""),
   positiveIntegerCheck "REQUEST_TIMEOUT_SECONDS"
     (lookupEnv cfg "REQUEST_TIMEOUT_SECONDS" ""),
   booleanCheck "IS_DEBUG" (lookupEnv cfg "IS_DEBUG" ""),
   booleanCheck "ENABLE_LOGGING" (lookupEnv cfg "ENABLE_LOGGING" ""),
   booleanCheck "ENABLE_WISHLIST" (lookupEnv cfg "ENABLE_WISHLIST" ""),
   booleanCheck "ENABLE_CART" (lookupEnv cfg "ENABLE_CART" "")]

/-- `EnvironmentValidator._validateSecuritySettings` over a snapshot: the
errors and warnings it appends, in order.  Only the block guarded by
`env == 'production'` ever appends errors; the trailing checks append
warnings only. -/
def EnvironmentValidator.validateSecuritySettings (cfg : Config) :
    List String × List String :=
  let env := EnvironmentService.currentEnvironment cfg
  let prodErrors :=
    if env = "production" then
      (if EnvironmentService.isDebug cfg then
        ["Debug mode should be disabled in production"] else []) ++
      (if EnvironmentService.demoUsername cfg ≠ "" ∨
          EnvironmentService.demoPassword cfg ≠ "" then
        ["Demo credentials should not be used in production"] else []) ++
      (if !EnvironmentService.requireHttps cfg &&
          !strContains (EnvironmentService.baseUrl cfg) "localhost" then
        ["HTTPS should be required in production"] else [])
    else []
  let prodWarnings :=
    if env = "production" then
      (if EnvironmentService.sessionTimeoutHours cfg > 8 then
        ["Session timeout should be shorter in production"] else [])
    else []
  let httpWarning :=
    if strStartsWith (EnvironmentService.baseUrl cfg) "http://" &&
        !strContains (EnvironmentService.baseUrl cfg) "localhost" then
      ["Using HTTP instead of HTTPS for API communication"] else []
  let loggingWarning :=
    if env = "production" && EnvironmentService.enableLogging cfg then
      ["Verbose logging should be disabled in production"] else []
  (prodErrors, prodWarnings ++ httpWarning ++ loggingWarning)

/-- `EnvironmentValidator.validate` over a snapshot: run every rule, collect
the errors of non-valid rule results and all warnings, append the
security-settings errors and warnings, and report `isValid: errors.isEmpty`. -/
def EnvironmentValidator.validate (cfg : Config) : ValidationResult :=
  let rs := EnvironmentValidator.ruleResults cfg
  let ruleErrors := rs.flatMap (fun r => if r.isValid then [] else r.errors)
  let ruleWarnings := rs.flatMap (fun r => r.warnings)
  let sec := EnvironmentValidator.validateSecuritySettings cfg
  let errors := ruleErrors ++ sec.1
  let warnings := ruleWarnings ++ sec.2
  ⟨errors.isEmpty, errors, warnings⟩

/-- The `SecurityPolicy` value bundle; `sessionTimeoutHours` models
`Duration(hours: n)`. -/
structure SecurityPolicy where
  allowDebugLogging : Bool
  allowDemoCredentials : Bool
  requireHttps : Bool
  sessionTimeoutHours : Nat
  maxLoginAttempts : Nat
  enableStrictValidation : Bool
deriving DecidableEq

/-- `ProductionSecurityPolicy`. -/
def ProductionSecurityPolicy : SecurityPolicy :=
  ⟨false, false, true, 1, 3, true⟩

/-- `DevelopmentSecurityPolicy`. -/
def DevelopmentSecurityPolicy : SecurityPolicy :=
  ⟨true, true, false, 24, 10, false⟩

/-- Modelled from the spec: `StagingSecurityPolicy` is referenced by
`SecurityPolicyManager.getCurrentPolicy` but not defined anywhere in the
source; the spec table row for `staging` supplies its values. -/
def StagingSecurityPolicy : SecurityPolicy :=
  ⟨false, true, true, 8, 5, true⟩

/-- `SecurityPolicyManager.getCurrentPolicy`: a switch on
`EnvironmentService.currentEnvironment` with `DevelopmentSecurityPolicy` as
the default case. -/
def SecurityPolicyManager.getCurrentPolicy (cfg : Config) : SecurityPolicy :=
  let e := EnvironmentService.currentEnvironment cfg
  if e = "production" then ProductionSecurityPolicy
  else if e = "staging" then StagingSecurityPolicy
  else DevelopmentSecurityPolicy

/-- The mutable static state of `EnvironmentService` together with the store
of the external `flutter_dotenv` package: `_isInitialized`,
`_testEnvironment`, and whether / with what `dotenv.load` (or
`dotenv.init`) has populated the dotenv store. -/
structure EnvState where
  isInitialized : Bool
  testEnvironment : Option Config
  dotenvLoaded : Bool
  dotenvEnv : Config
deriving DecidableEq

/-- The exceptions a read can surface: `EnvironmentNotInitializedException`
thrown by `_ensureInitialized`, and the `NotInitializedError` thrown by the
external `flutter_dotenv` package when its store is read before any load. -/
inductive EnvError where
  | notInitialized
  | dotenvNotInitialized
deriving DecidableEq

/-- `EnvironmentService._ensureInitialized`: throws when `_isInitialized` is
false and no test environment is set. -/
def ensureInitialized (st : EnvState) : Except EnvError Unit :=
  if !st.isInitialized && st.testEnvironment.isNone then
    Except.error EnvError.notInitialized
  else Except.ok ()

/-- `dotenv.get(key, fallback:)` of the external `flutter_dotenv` package:
throws `NotInitializedError` before any load, otherwise `env[key] ??
fallback`. -/
def dotenvGet (st : EnvState) (key fallback : String) : Except EnvError String :=
  if st.dotenvLoaded then Except.ok (lookupEnv st.dotenvEnv key fallback)
  else Except.error EnvError.dotenvNotInitialized

/-- `EnvironmentService.getEnv` (the public accessor): `_ensureInitialized()`
then `dotenv.get(key, fallback: defaultValue)`. -/
def EnvironmentService.getEnvM (st : EnvState) (key default : String) :
    Except EnvError String := do
  let _ ← ensureInitialized st
  dotenvGet st key default

/-- `EnvironmentService.getBool` (the public accessor): `getEnv(key)`
lower-cased, empty gives the default, otherwise the truthy-token test. -/
def EnvironmentService.getBoolM (st : EnvState) (key : String) (d : Bool) :
    Except EnvError Bool :=
  (EnvironmentService.getEnvM st key "").map (fun s =>
    let w := lowerStr s
    if w = "" then d else ["true", "1", "yes", "on"].contains w)

/-- `EnvironmentService.getInt` (the public accessor). -/
def EnvironmentService.getIntM (st : EnvState) (key : String) (d : Int) :
    Except EnvError Int :=
  (EnvironmentService.getEnvM st key "").map (fun v =>
    if v = "" then d else (intTryParse v).getD d)

/-- `EnvironmentService._getEnv` (the private accessor): reads the test
environment when one is set — with no `_ensureInitialized` guard — and the
dotenv store otherwise. -/
def EnvironmentService.getEnvPrivM (st : EnvState) (key default : String) :
    Except EnvError String :=
  match st.testEnvironment with
  | some t => Except.ok (lookupEnv t key default)
  | none => dotenvGet st key default

/-- `EnvironmentService.currentEnvironment` as a stateful read:
`_getEnv('ENVIRONMENT', 'development')`. -/
def EnvironmentService.currentEnvironmentM (st : EnvState) : Except EnvError String :=
  EnvironmentService.getEnvPrivM st "ENVIRONMENT" "development"

/-- `EnvironmentService._getBool` as a stateful read. -/
def EnvironmentService.getBoolPrivM (st : EnvState) (key : String) (d : Bool) :
    Except EnvError Bool :=
  (EnvironmentService.getEnvPrivM st key "").map (fun v =>
    if v = "" then d else ["true", "1", "yes", "on"].contains (lowerStr v))

/-- `EnvironmentService._getInt` as a stateful read. -/
def EnvironmentService.getIntPrivM (st : EnvState) (key : String) (d : Int) :
    Except EnvError Int :=
  (EnvironmentService.getEnvPrivM st key "").map (fun v =>
    if v = "" then d else (intTryParse v).getD d)

/-- `EnvironmentService.getAllEnvironmentVariables`: `_ensureInitialized()`
then `dotenv.env` (which itself throws before any load). -/
def EnvironmentService.getAllEnvironmentVariablesM (st : EnvState) :
    Except EnvError Config := do
  let _ ← ensureInitialized st
  if st.dotenvLoaded then pure st.dotenvEnv
  else Except.error EnvError.dotenvNotInitialized

/-- `SecretsManager.getAllSecureValues` as a stateful read (the redacted
dump): fetch all variables, then redact each entry. -/
def SecretsManager.getAllSecureValuesM (st : EnvState) : Except EnvError Config :=
  (EnvironmentService.getAllEnvironmentVariablesM st).map
    SecretsManager.getAllSecureValues

/-- `SecretsManager.generateSecureHash` as a stateful read, up to the final
sha256 hex digest of the external `crypto` package (a pure total
postcomposition that cannot change whether the call fails). -/
def SecretsManager.generateSecureHashM (st : EnvState) : Except EnvError String :=
  (EnvironmentService.getAllEnvironmentVariablesM st).map
    SecretsManager.secureHashInput

/-- `EnvironmentService.generateEnvironmentHash` as a stateful read, up to
the final sha256 hex digest. -/
def EnvironmentService.generateEnvironmentHashM (st : EnvState) : Except EnvError String :=
  (EnvironmentService.getAllEnvironmentVariablesM st).map
    EnvironmentService.environmentHashInput

/-- `RequiredKeyRule.validate` as a stateful read. -/
def requiredKeyRuleM (st : EnvState) (key : String) : Except EnvError ValidationResult :=
  (EnvironmentService.getEnvM st key "").map (requiredKeyCheck key)

/-- `EnumRule.validate` as a stateful read. -/
def enumRuleM (st : EnvState) (key : String) (allowed : List String) :
    Except EnvError ValidationResult :=
  (EnvironmentService.getEnvM st key "").map (enumCheck key allowed)

/-- `UrlFormatRule.validate` as a stateful read. -/
def urlFormatRuleM (st : EnvState) (key : String) : Except EnvError ValidationResult :=
  (EnvironmentService.getEnvM st key "").map (urlFormatCheck key)

/-- `PositiveIntegerRule.validate` as a stateful read. -/
def positiveIntegerRuleM (st : EnvState) (key : String) :
    Except EnvError ValidationResult :=
  (EnvironmentService.getEnvM st key "").map (positiveIntegerCheck key)

/-- `BooleanRule.validate` as a stateful read. -/
def booleanRuleM (st : EnvState) (key : String) : Except EnvError ValidationResult :=
  (EnvironmentService.getEnvM st key "").map (booleanCheck key)

/-- The production block of `_validateSecuritySettings` as stateful reads,
in source order; produces the errors and the warning it appends. -/
def productionChecksM (st : EnvState) : Except EnvError (List String × List String) := do
  let dbg ← EnvironmentService.getBoolPrivM st "IS_DEBUG" true
  let du ← EnvironmentService.getEnvPrivM st "DEMO_USERNAME" ""
  let dp ← EnvironmentService.getEnvPrivM st "DEMO_PASSWORD" ""
  let rh ← EnvironmentService.getBoolPrivM st "REQUIRE_HTTPS" false
  let bu ← EnvironmentService.getEnvPrivM st "API_BASE_URL" "https://dummyjson.com"
  let sth ← EnvironmentService.getIntPrivM st "SESSION_TIMEOUT_HOURS" 24
  pure
    ((if dbg then ["Debug mode should be disabled in production"] else []) ++
     (if du != "" || dp != "" then
       ["Demo credentials should not be used in production"] else []) ++
     (if !rh && !strContains bu "localhost" then
       ["HTTPS should be required in production"] else []),
     if sth > 8 then ["Session timeout should be shorter in production"] else [])

/-- `EnvironmentValidator._validateSecuritySettings` as stateful reads. -/
def validateSecuritySettingsM (st : EnvState) :
    Except EnvError (List String × List String) := do
  let env ← EnvironmentService.currentEnvironmentM st
  let prod ← if env = "production" then productionChecksM st else pure ([], [])
  let bu ← EnvironmentService.getEnvPrivM st "API_BASE_URL" "https://dummyjson.com"
  let httpWarning :=
    if strStartsWith bu "http://" && !strContains bu "localhost" then
      ["Using HTTP instead of HTTPS for API communication"] else []
  let el ← EnvironmentService.getBoolPrivM st "ENABLE_LOGGING" true
  let loggingWarning :=
    if env = "production" && el then
      ["Verbose logging should be disabled in production"] else []
  pure (prod.1, prod.2 ++ httpWarning ++ loggingWarning)

/-- `EnvironmentValidator.validate` as stateful reads: run the nine rules in
registration order, then the security settings, and aggregate. -/
def EnvironmentValidator.validateM (st : EnvState) : Except EnvError ValidationResult := do
  let r1 ← requiredKeyRuleM st "ENVIRONMENT"
  let r2 ← enumRuleM st "ENVIRONMENT" ["development", "staging", "production", "test"]
  let r3 ← requiredKeyRuleM st "API_BASE_URL"
  let r4 ← urlFormatRuleM st "API_BASE_URL"
  let r5 ← positiveIntegerRuleM st "REQUEST_TIMEOUT_SECONDS"
  let r6 ← booleanRuleM st "IS_DEBUG"
  let r7 ← booleanRuleM st "ENABLE_LOGGING"
  let r8 ← booleanRuleM st "ENABLE_WISHLIST"
  let r9 ← booleanRuleM st "ENABLE_CART"
  let rs := [r1, r2, r3, r4, r5, r6, r7, r8, r9]
  let ruleErrors := rs.flatMap (fun r => if r.isValid then [] else r.errors)
  let ruleWarnings := rs.flatMap (fun r => r.warnings)
  let sec ← validateSecuritySettingsM st
  let errors := ruleErrors ++ sec.1
  let warnings := ruleWarnings ++ sec.2
  pure ⟨errors.isEmpty, errors, warnings⟩

/-- The causes an `initialize()` call can fail with; every failure is
surfaced by the surrounding `catch` as an
`EnvironmentInitializationException('Failed to load environment: …')`
wrapping the cause shown here. -/
inductive InitFailureCause where
  | missingRequiredVars (vars : List String)
  | envExampleNotFound
deriving DecidableEq

/-- `_validateRequiredVariables`'s required list. -/
def requiredVars : List String :=
  ["ENVIRONMENT", "API_BASE_URL", "REQUEST_TIMEOUT_SECONDS"]

/-- `_validateRequiredVariables`'s missing list: variables that are absent
from the loaded store or stored with an empty value. -/
def missingRequired (cfg : Config) : List String :=
  requiredVars.filter (fun v => ((List.lookup v cfg).getD "").isEmpty)

/-- The shared tail of `initialize()` after a successful `dotenv` load of
`cfg`: run `_validateRequiredVariables` (`_validateEnvironmentSpecific` only
prints warnings) and, if it passes, set `_isInitialized`.  A validation
failure is wrapped by the `catch` and leaves `_isInitialized` false while
the dotenv store stays loaded. -/
def loadConfigOutcome (st : EnvState) (cfg : Config) :
    EnvState × Except InitFailureCause Unit :=
  let st1 : EnvState := { st with dotenvLoaded := true, dotenvEnv := cfg }
  let miss := missingRequired cfg
  if miss.isEmpty then ({ st1 with isInitialized := true }, Except.ok ())
  else (st1, Except.error (InitFailureCause.missingRequiredVars miss))

/-- `EnvironmentService.initialize({fileName})`: early return when already
initialized without a test override; a set test environment is loaded via
`dotenv.init(customMerge:)`; otherwise the file `fileName ?? '.env'` is
loaded when it exists, else the code *falls back to loading
`'.env.example'`*, and only a failing fallback load (the file is absent, so
`dotenv.load` throws) surfaces an error.  `fs` maps a file name to its
parsed key/value content, `none` meaning the file does not exist. -/
def EnvironmentService.initEnvService (st : EnvState)
    (fs : String → Option Config) (fileName : Option String) :
    EnvState × Except InitFailureCause Unit :=
  if st.isInitialized && st.testEnvironment.isNone then (st, Except.ok ())
  else
    match st.testEnvironment with
    | some t => loadConfigOutcome st t
    | none =>
        let fileToLoad := fileName.getD ".env"
        match fs fileToLoad with
        | some cfg => loadConfigOutcome st cfg
        | none =>
            match fs ".env.example" with
            | some cfg => loadConfigOutcome st cfg
            | none => (st, Except.error InitFailureCause.envExampleNotFound)

/-- `EnvironmentService.setTestEnvironment`. -/
def EnvironmentService.setTestEnvironment (st : EnvState) (t : Config) : EnvState :=
  { st with testEnvironment := some t, isInitialized := false }

/-- `EnvironmentService.clearTestEnvironment`. -/
def EnvironmentService.clearTestEnvironment (st : EnvState) : EnvState :=
  { st with testEnvironment := none, isInitialized := false }

/-- The fresh process state: nothing initialized, no test environment, the
dotenv store never loaded. -/
def freshState : EnvState :=
  ⟨false, none, false, []⟩

/-- Scenario A of the spec's testable properties: a production configuration
with debug on and a demo username set. -/
def cfgScenarioA : Config :=
  [("ENVIRONMENT", "production"), ("IS_DEBUG", "true"),
   ("API_BASE_URL", "https://api.example.com"), ("DEMO_USERNAME", "x")]

/-- A complete configuration satisfying `_validateRequiredVariables`. -/
def goodCfg : Config :=
  [("ENVIRONMENT", "development"), ("API_BASE_URL", "https://dummyjson.com"),
   ("REQUEST_TIMEOUT_SECONDS", "30")]

/-- A file system without the base `.env` file where the fallback
`.env.example` exists with a complete configuration. -/
def fsFallbackOnly : String → Option Config :=
  fun n => if n = ".env.example" then some goodCfg else none

/-- A file system whose base `.env` file exists but lacks required
variables. -/
def fsMissingVars : String → Option Config :=
  fun n => if n = ".env" then some [("ENVIRONMENT", "production")] else none

/-- A file system with no configuration files at all. -/
def fsNoFiles : String → Option Config :=
  fun _ => none

theorem containsSub_iff (pat l : List Char) :
    containsSub pat l = true ↔ pat <:+: l := by
  induction l with
  | nil =>
      simp [containsSub, List.infix_nil, List.isEmpty_iff]
  | cons c cs ih =>
      simp [containsSub, List.infix_cons_iff, List.isPrefixOf_iff_prefix, ih,
        Bool.or_eq_true]

theorem strContains_iff (s pat : String) :
    strContains s pat = true ↔ pat.data <:+: s.data := by
  simp [strContains, containsSub_iff]

theorem lookup_sensitivePatterns_getD (p : String) :
    (List.lookup p SecretsManager.sensitivePatterns).getD "***REDACTED***" =
      "***REDACTED***" := by
  simp only [SecretsManager.sensitivePatterns, List.lookup]
  split <;> simp_all [List.lookup]
  split <;> simp_all [List.lookup]
  split <;> simp_all [List.lookup]
  split <;> simp_all [List.lookup]
  split <;> simp_all

theorem getBool_true_of_default_false (cfg : Config) (key : String)
    (h : EnvironmentService.getBool cfg key false = true) :
    EnvironmentService.getBool cfg key true = true := by
  unfold EnvironmentService.getBool at h ⊢
  by_cases hw : lowerStr (lookupEnv cfg key "") = ""
  · simp [hw] at h
  · simpa [hw] using h

theorem secrets_sensitive_imp_env_sensitive (k : String)
    (h : SecretsManager.isSensitiveKey k = true) :
    EnvironmentService.isSensitiveKey k = true := by
  unfold SecretsManager.isSensitiveKey SecretsManager.sensitivePatterns at h
  unfold EnvironmentService.isSensitiveKey
  simp only [List.any_eq_true] at h ⊢
  obtain ⟨p, hp, hc⟩ := h
  simp only [List.mem_cons, List.not_mem_nil, or_false] at hp
  rcases hp with h1 | h1 | h1 | h1 | h1 <;> subst h1 <;>
    simp only at hc
  · exact ⟨"password", by simp, hc⟩
  · exact ⟨"secret", by simp, hc⟩
  · exact ⟨"key", by simp, hc⟩
  · exact ⟨"token", by simp, hc⟩
  · exact ⟨"credential", by simp, hc⟩

/-- Claim C1, counterexample: the claim says `CurrentEnvironment()` parses
the `ENVIRONMENT` value by exact case-insensitive match against the four
enum members and returns `development` for an unrecognized value.  On the
code, the unrecognized value `'prod'` is returned verbatim (not
`'development'`), and the case variant `'Production'` is returned verbatim
too instead of being matched to `production`. -/
theorem c1_counterexample :
    EnvironmentService.currentEnvironment [("ENVIRONMENT", "prod")] = "prod"
    ∧ "prod" ∉ ["development", "staging", "production", "test"]
    ∧ EnvironmentService.currentEnvironment [("ENVIRONMENT", "prod")] ≠ "development"
    ∧ EnvironmentService.currentEnvironment [("ENVIRONMENT", "Production")] =
        "Production" :=
  ⟨rfl, by decide, by decide, rfl⟩

/-- Claim C1, amended: `currentEnvironment` returns the stored `ENVIRONMENT`
value verbatim — case-sensitively and without any matching against the enum
members — and returns `'development'` exactly when the key is absent. -/
theorem c1_amended (cfg : Config) :
    (List.lookup "ENVIRONMENT" cfg = none →
      EnvironmentService.currentEnvironment cfg = "development")
    ∧ (∀ v, List.lookup "ENVIRONMENT" cfg = some v →
      EnvironmentService.currentEnvironment cfg = v) := by
  constructor
  · intro h
    simp [EnvironmentService.currentEnvironment, lookupEnv, h]
  · intro v h
    simp [EnvironmentService.currentEnvironment, lookupEnv, h]

/-- Witness for `c1_amended` at an empty configuration and at a configuration
storing a case-variant value. -/
theorem c1_amended_witness :
    EnvironmentService.currentEnvironment [] = "development"
    ∧ EnvironmentService.currentEnvironment [("ENVIRONMENT", "PRODUCTION")] =
        "PRODUCTION" :=
  ⟨(c1_amended []).1 rfl,
   (c1_amended [("ENVIRONMENT", "PRODUCTION")]).2 "PRODUCTION" rfl⟩

/-- Claim C2 (confirmed): for a production configuration, `validate` reports
the `'Debug mode …'` error whenever `GetBool('IS_DEBUG', false)` is true and
the `'Demo credentials …'` error whenever a demo credential is non-empty, so
such a configuration is reported invalid; and outside production the
security checks contribute nothing — the errors are exactly the rule
errors. -/
theorem c2_production_security (cfg : Config) :
    (EnvironmentService.currentEnvironment cfg = "production" →
      (EnvironmentService.getBool cfg "IS_DEBUG" false = true →
        "Debug mode should be disabled in production" ∈
          (EnvironmentValidator.validate cfg).errors)
      ∧ (EnvironmentService.demoUsername cfg ≠ "" ∨
          EnvironmentService.demoPassword cfg ≠ "" →
        "Demo credentials should not be used in production" ∈
          (EnvironmentValidator.validate cfg).errors)
      ∧ (EnvironmentService.getBool cfg "IS_DEBUG" false = true ∨
          EnvironmentService.demoUsername cfg ≠ "" ∨
          EnvironmentService.demoPassword cfg ≠ "" →
        (EnvironmentValidator.validate cfg).isValid = false))
    ∧ (EnvironmentService.currentEnvironment cfg ≠ "production" →
      (EnvironmentValidator.validate cfg).errors =
        (EnvironmentValidator.ruleResults cfg).flatMap
          (fun r => if r.isValid then [] else r.errors)) := by
  have herr : (EnvironmentValidator.validate cfg).errors =
      (EnvironmentValidator.ruleResults cfg).flatMap
        (fun r => if r.isValid then [] else r.errors) ++
      (EnvironmentValidator.validateSecuritySettings cfg).1 := rfl
  have hval : (EnvironmentValidator.validate cfg).isValid =
      (EnvironmentValidator.validate cfg).errors.isEmpty := rfl
  constructor
  · intro hprod
    have hdbgmem : EnvironmentService.getBool cfg "IS_DEBUG" false = true →
        "Debug mode should be disabled in production" ∈
          (EnvironmentValidator.validate cfg).errors := by
      intro hdbg
      have hd : EnvironmentService.isDebug cfg = true :=
        getBool_true_of_default_false cfg "IS_DEBUG" hdbg
      rw [herr]
      refine List.mem_append_right _ ?_
      simp [EnvironmentValidator.validateSecuritySettings, hprod, hd]
    have hdemomem : EnvironmentService.demoUsername cfg ≠ "" ∨
        EnvironmentService.demoPassword cfg ≠ "" →
        "Demo credentials should not be used in production" ∈
          (EnvironmentValidator.validate cfg).errors := by
      intro hdemo
      rw [herr]
      refine List.mem_append_right _ ?_
      simp only [EnvironmentValidator.validateSecuritySettings, hprod,
        if_pos rfl]
      simp [hdemo]
    refine ⟨hdbgmem, hdemomem, ?_⟩
    intro hcase
    have hmem : ∃ e, e ∈ (EnvironmentValidator.validate cfg).errors := by
      rcases hcase with h | h
      · exact ⟨_, hdbgmem h⟩
      · exact ⟨_, hdemomem h⟩
    obtain ⟨e, he⟩ := hmem
    rw [hval, Bool.eq_false_iff]
    intro hemp
    rw [List.isEmpty_iff] at hemp
    rw [hemp] at he
    exact List.not_mem_nil e he
  · intro hne
    rw [herr]
    have : (EnvironmentValidator.validateSecuritySettings cfg).1 = [] := by
      simp [EnvironmentValidator.validateSecuritySettings, hne]
    rw [this, List.append_nil]

/-- Witness for `c2_production_security` at Scenario A of the spec. -/
theorem c2_production_security_witness :
    "Debug mode should be disabled in production" ∈
      (EnvironmentValidator.validate cfgScenarioA).errors
    ∧ "Demo credentials should not be used in production" ∈
      (EnvironmentValidator.validate cfgScenarioA).errors
    ∧ (EnvironmentValidator.validate cfgScenarioA).isValid = false :=
  ⟨((c2_production_security cfgScenarioA).1 rfl).1 (by decide),
   ((c2_production_security cfgScenarioA).1 rfl).2.1 (Or.inl (by decide)),
   ((c2_production_security cfgScenarioA).1 rfl).2.2 (Or.inl (by decide))⟩

/-- Claim C3, counterexample: the claim says the digest is computed over the
*sorted* `key=value`-joined representation of the non-sensitive entries.  On
the code, the two non-sensitive entries of `[(B,1), (A,2)]` are joined in map
iteration order, so the string fed to sha256 is `'B=1|A=2'` and not the
sorted representation `'A=2|B=1'` the claim describes. -/
theorem c3_counterexample :
    SecretsManager.isSensitiveKey "B" = false
    ∧ SecretsManager.isSensitiveKey "A" = false
    ∧ SecretsManager.secureHashInput [("B", "1"), ("A", "2")] = "B=1|A=2"
    ∧ specStableHashInput [("B", "1"), ("A", "2")] = "A=2|B=1"
    ∧ SecretsManager.secureHashInput [("B", "1"), ("A", "2")] ≠
        specStableHashInput [("B", "1"), ("A", "2")] := by
  refine ⟨by decide, by decide, by decide, by decide, by decide⟩

/-- Claim C3, amended: the hash-computation input is the `key=value`-joined
representation of exactly the non-sensitive entries in map iteration order
(not sorted): it is a function of the non-sensitive sub-map alone — so the
value of a sensitive key never influences it — and every entry that enters
it has a non-sensitive key. -/
theorem c3_amended :
    (∀ c1 c2 : Config,
      c1.filter (fun e => !SecretsManager.isSensitiveKey e.1) =
        c2.filter (fun e => !SecretsManager.isSensitiveKey e.1) →
      SecretsManager.secureHashInput c1 = SecretsManager.secureHashInput c2)
    ∧ (∀ (cfg : Config) (p : String × String),
      p ∈ cfg.filter (fun e => !SecretsManager.isSensitiveKey e.1) →
      SecretsManager.isSensitiveKey p.1 = false) := by
  constructor
  · intro c1 c2 h
    unfold SecretsManager.secureHashInput
    rw [h]
  · intro cfg p hp
    have := (List.mem_filter.mp hp).2
    simpa using this

/-- Witness for `c3_amended`: changing only the value stored under the
sensitive key `DEMO_PASSWORD` leaves the hash-computation input unchanged,
and the non-sensitive entry that enters it is indeed non-sensitive. -/
theorem c3_amended_witness :
    SecretsManager.secureHashInput [("DEMO_PASSWORD", "a"), ("X", "1")] =
      SecretsManager.secureHashInput [("DEMO_PASSWORD", "b"), ("X", "1")]
    ∧ SecretsManager.isSensitiveKey "X" = false :=
  ⟨c3_amended.1 [("DEMO_PASSWORD", "a"), ("X", "1")]
      [("DEMO_PASSWORD", "b"), ("X", "1")] (by decide),
   c3_amended.2 [("X", "1")] ("X", "1") (by decide)⟩

/-- Claim C4 (confirmed): `getSecureValue` returns the fixed sentinel
`'***REDACTED***'` exactly on sensitive keys and the value unchanged
otherwise, and the redacted dump `getAllSecureValues` keeps every
non-sensitive entry unchanged. -/
theorem c4_redact (k v : String) :
    (SecretsManager.isSensitiveKey k = true →
      SecretsManager.getSecureValue k v = "***REDACTED***")
    ∧ (SecretsManager.isSensitiveKey k = false →
      SecretsManager.getSecureValue k v = v)
    ∧ (∀ (cfg : Config) (e : String × String), e ∈ cfg →
      SecretsManager.isSensitiveKey e.1 = false →
      e ∈ SecretsManager.getAllSecureValues cfg) := by
  refine ⟨?_, ?_, ?_⟩
  · intro h
    simp [SecretsManager.getSecureValue, h, lookup_sensitivePatterns_getD]
  · intro h
    simp [SecretsManager.getSecureValue, h]
  · intro cfg e he hns
    have hval : SecretsManager.getSecureValue e.1 e.2 = e.2 := by
      simp [SecretsManager.getSecureValue, hns]
    have : (e.1, SecretsManager.getSecureValue e.1 e.2) ∈
        SecretsManager.getAllSecureValues cfg :=
      List.mem_map_of_mem (fun e => (e.1, SecretsManager.getSecureValue e.1 e.2)) he
    rwa [hval] at this

/-- Witness for `c4_redact`: a sensitive key is redacted to the sentinel, a
non-sensitive key keeps its value, and a non-sensitive entry survives the
redacted dump unchanged. -/
theorem c4_redact_witness :
    SecretsManager.getSecureValue "DEMO_PASSWORD" "0lelplR" = "***REDACTED***"
    ∧ SecretsManager.getSecureValue "API_BASE_URL" "https://dummyjson.com" =
        "https://dummyjson.com"
    ∧ ("API_BASE_URL", "https://dummyjson.com") ∈
        SecretsManager.getAllSecureValues
          [("API_BASE_URL", "https://dummyjson.com")] :=
  ⟨(c4_redact "DEMO_PASSWORD" "0lelplR").1 (by decide),
   (c4_redact "API_BASE_URL" "https://dummyjson.com").2.1 (by decide),
   (c4_redact "API_BASE_URL" "x").2.2 [("API_BASE_URL", "https://dummyjson.com")]
     ("API_BASE_URL", "https://dummyjson.com") (by decide) (by decide)⟩

/-- Claim C5 (confirmed): `SecretsManager.isSensitiveKey` holds exactly when
the lower-cased key contains one of the substrings `password`, `secret`,
`key`, `token`, `credential`. -/
theorem c5_sensitive_iff (k : String) :
    SecretsManager.isSensitiveKey k = true ↔
      ∃ p ∈ (["password", "secret", "key", "token", "credential"] : List String),
        p.data <:+: (lowerStr k).data := by
  unfold SecretsManager.isSensitiveKey SecretsManager.sensitivePatterns
  simp only [List.any_eq_true, List.mem_cons, List.not_mem_nil, or_false]
  constructor
  · rintro ⟨p, hp, hc⟩
    rcases hp with h | h | h | h | h <;> subst h <;>
      exact ⟨_, by simp, (strContains_iff _ _).mp hc⟩
  · rintro ⟨p, hp, hc⟩
    rcases hp with h | h | h | h | h <;> subst h
    · exact ⟨("password", "***REDACTED***"), by simp, (strContains_iff _ _).mpr hc⟩
    · exact ⟨("secret", "***REDACTED***"), by simp, (strContains_iff _ _).mpr hc⟩
    · exact ⟨("key", "***REDACTED***"), by simp, (strContains_iff _ _).mpr hc⟩
    · exact ⟨("token", "***REDACTED***"), by simp, (strContains_iff _ _).mpr hc⟩
    · exact ⟨("credential", "***REDACTED***"), by simp, (strContains_iff _ _).mpr hc⟩

/-- Claim C6, counterexample: the claim says any unrecognized non-empty value
makes `GetBool` return the given default.  On the code, the unrecognized
non-empty value `'maybe'` (in neither token set) with default `true` returns
`false`, not the default. -/
theorem c6_counterexample :
    "maybe" ∉ ["true", "1", "yes", "on"]
    ∧ "maybe" ∉ ["false", "0", "no", "off"]
    ∧ EnvironmentService.getBool [("K", "maybe")] "K" true = false := by
  refine ⟨by decide, by decide, by decide⟩

/-- Claim C6, amended: `getBool` returns `true` exactly when the lower-cased
value is one of `true`, `1`, `yes`, `on`; returns the default exactly when
the key is absent or its value is empty; and returns `false` for every other
non-empty value — recognized falsy tokens and unrecognized values alike. -/
theorem c6_amended (cfg : Config) (key : String) (d : Bool) :
    (lowerStr (lookupEnv cfg key "") = "" →
      EnvironmentService.getBool cfg key d = d)
    ∧ (lowerStr (lookupEnv cfg key "") ∈ ["true", "1", "yes", "on"] →
      EnvironmentService.getBool cfg key d = true)
    ∧ (lowerStr (lookupEnv cfg key "") ≠ "" →
      lowerStr (lookupEnv cfg key "") ∉ ["true", "1", "yes", "on"] →
      EnvironmentService.getBool cfg key d = false) := by
  refine ⟨?_, ?_, ?_⟩
  · intro h
    simp [EnvironmentService.getBool, h]
  · intro h
    have hne : lowerStr (lookupEnv cfg key "") ≠ "" := by
      intro he
      rw [he] at h
      simp at h
    simp only [EnvironmentService.getBool, if_neg hne]
    simpa using h
  · intro hne hmem
    simp only [EnvironmentService.getBool, if_neg hne]
    simpa using hmem

/-- Witness for `c6_amended`: an absent key yields the default, a truthy
token yields true, and the falsy token `off` yields false. -/
theorem c6_amended_witness :
    EnvironmentService.getBool [] "K" true = true
    ∧ EnvironmentService.getBool [("K", "YES")] "K" false = true
    ∧ EnvironmentService.getBool [("K", "off")] "K" true = false :=
  ⟨(c6_amended [] "K" true).1 (by decide),
   (c6_amended [("K", "YES")] "K" false).2.1 (by decide),
   (c6_amended [("K", "off")] "K" true).2.2 (by decide) (by decide)⟩

/-- Claim C7, counterexample: the claim says a missing base file with no test
override makes `initialize()` fail fatally so the caller cannot proceed.  On
the code, with `.env` absent and `.env.example` present, `initialize()`
silently falls back to `.env.example`, succeeds, and marks the service
initialized. -/
theorem c7_counterexample :
    fsFallbackOnly ".env" = none
    ∧ (EnvironmentService.initEnvService freshState fsFallbackOnly none).2 =
        Except.ok ()
    ∧ (EnvironmentService.initEnvService freshState fsFallbackOnly none).1.isInitialized =
        true
    ∧ (EnvironmentService.initEnvService freshState fsFallbackOnly none).1.dotenvEnv =
        goodCfg :=
  ⟨rfl, rfl, rfl, rfl⟩

/-- Claim C7, amended: with no test override and the base file missing,
`initialize()` falls back to loading `.env.example`; it fails (with the
catch-all `EnvironmentInitializationException` — there is no distinct
`SourceUnavailable` error) only when that fallback file is missing too. -/
theorem c7_amended (st : EnvState) (fs : String → Option Config)
    (fileName : Option String)
    (hInit : st.isInitialized = false) (hTest : st.testEnvironment = none)
    (hBase : fs (fileName.getD ".env") = none) :
    (fs ".env.example" = none →
      EnvironmentService.initEnvService st fs fileName =
        (st, Except.error InitFailureCause.envExampleNotFound))
    ∧ (∀ c, fs ".env.example" = some c →
      EnvironmentService.initEnvService st fs fileName = loadConfigOutcome st c) := by
  constructor
  · intro hEx
    simp [EnvironmentService.initEnvService, hInit, hTest, hBase, hEx]
  · intro c hEx
    simp [EnvironmentService.initEnvService, hInit, hTest, hBase, hEx]

/-- Witness for `c7_amended`: with no configuration file at all the call
fails, and with only `.env.example` present it resolves to loading that
file's content. -/
theorem c7_amended_witness :
    EnvironmentService.initEnvService freshState fsNoFiles none =
      (freshState, Except.error InitFailureCause.envExampleNotFound)
    ∧ EnvironmentService.initEnvService freshState fsFallbackOnly none =
        loadConfigOutcome freshState goodCfg :=
  ⟨(c7_amended freshState fsNoFiles none rfl rfl rfl).1 rfl,
   (c7_amended freshState fsFallbackOnly none rfl rfl rfl).2 goodCfg rfl⟩

/-- Claim C8, counterexample: the claim says every listed method fails with
an initialization error before `Initialize`/`SetTestConfig` has completed.
On the code, an `initialize()` call that loads `.env` but then fails
required-variable validation leaves the dotenv store loaded while
`_isInitialized` stays false — initialization has *not* completed — and in
that state `currentEnvironment` (which reads through `_getEnv`, bypassing
`_ensureInitialized`) silently returns the loaded value instead of failing. -/
theorem c8_counterexample :
    (EnvironmentService.initEnvService freshState fsMissingVars none).2 =
      Except.error (InitFailureCause.missingRequiredVars
        ["API_BASE_URL", "REQUEST_TIMEOUT_SECONDS"])
    ∧ (EnvironmentService.initEnvService freshState fsMissingVars none).1.isInitialized =
        false
    ∧ (EnvironmentService.initEnvService freshState fsMissingVars none).1.testEnvironment =
        none
    ∧ EnvironmentService.currentEnvironmentM
        (EnvironmentService.initEnvService freshState fsMissingVars none).1 =
      Except.ok "production" :=
  ⟨rfl, rfl, rfl, rfl⟩

/-- Claim C8, amended: before `Initialize`/`SetTestConfig` has completed,
every method guarded by `_ensureInitialized` — `getEnv`, `getBool`, `getInt`,
`validate` (whose first rule reads through `getEnv`), the redacted dump and
the stable hash — fails with an initialization error; `currentEnvironment`
bypasses that guard through `_getEnv` and fails (with the dotenv package's
own not-initialized error) only as long as the dotenv store is unloaded,
i.e. in the fresh state or after an `initialize()` that never reached a
successful file load. -/
theorem c8_amended (st : EnvState) (h1 : st.isInitialized = false)
    (h2 : st.testEnvironment = none) :
    (∀ k d, EnvironmentService.getEnvM st k d =
      Except.error EnvError.notInitialized)
    ∧ (∀ k d, EnvironmentService.getBoolM st k d =
      Except.error EnvError.notInitialized)
    ∧ (∀ k d, EnvironmentService.getIntM st k d =
      Except.error EnvError.notInitialized)
    ∧ EnvironmentValidator.validateM st = Except.error EnvError.notInitialized
    ∧ SecretsManager.getAllSecureValuesM st = Except.error EnvError.notInitialized
    ∧ SecretsManager.generateSecureHashM st = Except.error EnvError.notInitialized
    ∧ (st.dotenvLoaded = false →
      EnvironmentService.currentEnvironmentM st =
        Except.error EnvError.dotenvNotInitialized) := by
  have hE : ensureInitialized st = Except.error EnvError.notInitialized := by
    simp [ensureInitialized, h1, h2]
  have hget : ∀ k d, EnvironmentService.getEnvM st k d =
      Except.error EnvError.notInitialized := by
    intro k d
    unfold EnvironmentService.getEnvM
    rw [hE]
    rfl
  have hall : EnvironmentService.getAllEnvironmentVariablesM st =
      Except.error EnvError.notInitialized := by
    unfold EnvironmentService.getAllEnvironmentVariablesM
    rw [hE]
    rfl
  refine ⟨hget, ?_, ?_, ?_, ?_, ?_, ?_⟩
  · intro k d
    unfold EnvironmentService.getBoolM
    rw [hget]
    rfl
  · intro k d
    unfold EnvironmentService.getIntM
    rw [hget]
    rfl
  · have hrule : requiredKeyRuleM st "ENVIRONMENT" =
        Except.error EnvError.notInitialized := by
      unfold requiredKeyRuleM
      rw [hget]
      rfl
    unfold EnvironmentValidator.validateM
    rw [hrule]
    rfl
  · unfold SecretsManager.getAllSecureValuesM
    rw [hall]
    rfl
  · unfold SecretsManager.generateSecureHashM
    rw [hall]
    rfl
  · intro h3
    simp [EnvironmentService.currentEnvironmentM,
      EnvironmentService.getEnvPrivM, h2, dotenvGet, h3]

/-- Witness for `c8_amended` at the fresh process state. -/
theorem c8_amended_witness :
    EnvironmentService.getEnvM freshState "API_BASE_URL" "" =
      Except.error EnvError.notInitialized
    ∧ EnvironmentValidator.validateM freshState =
        Except.error EnvError.notInitialized
    ∧ SecretsManager.generateSecureHashM freshState =
        Except.error EnvError.notInitialized
    ∧ EnvironmentService.currentEnvironmentM freshState =
        Except.error EnvError.dotenvNotInitialized :=
  ⟨(c8_amended freshState rfl rfl).1 "API_BASE_URL" "",
   (c8_amended freshState rfl rfl).2.2.2.1,
   (c8_amended freshState rfl rfl).2.2.2.2.2.1,
   (c8_amended freshState rfl rfl).2.2.2.2.2.2 rfl⟩

/-- Claim C9 (confirmed): `getCurrentPolicy` returns exactly the fixed table
values — for production `{false, false, true, 1h, 3, true}`, for development
and test `{true, true, false, 24h, 10, false}` (the `test` case hits the
`default` branch) — and the policy is a function of the environment string
alone, so repeated calls and configurations agreeing on the environment get
identical policies. -/
theorem c9_policy_table (cfg : Config) :
    (EnvironmentService.currentEnvironment cfg = "production" →
      SecurityPolicyManager.getCurrentPolicy cfg = ⟨false, false, true, 1, 3, true⟩)
    ∧ (EnvironmentService.currentEnvironment cfg = "development" →
      SecurityPolicyManager.getCurrentPolicy cfg = ⟨true, true, false, 24, 10, false⟩)
    ∧ (EnvironmentService.currentEnvironment cfg = "test" →
      SecurityPolicyManager.getCurrentPolicy cfg = ⟨true, true, false, 24, 10, false⟩)
    ∧ (∀ cfg2 : Config,
      EnvironmentService.currentEnvironment cfg =
        EnvironmentService.currentEnvironment cfg2 →
      SecurityPolicyManager.getCurrentPolicy cfg =
        SecurityPolicyManager.getCurrentPolicy cfg2) := by
  refine ⟨?_, ?_, ?_, ?_⟩
  · intro h
    simp [SecurityPolicyManager.getCurrentPolicy, h, ProductionSecurityPolicy]
  · intro h
    simp [SecurityPolicyManager.getCurrentPolicy, h, DevelopmentSecurityPolicy]
  · intro h
    simp [SecurityPolicyManager.getCurrentPolicy, h, DevelopmentSecurityPolicy]
  · intro cfg2 h
    unfold SecurityPolicyManager.getCurrentPolicy
    rw [h]

/-- Witness for `c9_policy_table` at singleton configurations for the three
claimed environments and the determinism conjunct across two configurations
sharing the production environment. -/
theorem c9_policy_table_witness :
    SecurityPolicyManager.getCurrentPolicy [("ENVIRONMENT", "production")] =
      ⟨false, false, true, 1, 3, true⟩
    ∧ SecurityPolicyManager.getCurrentPolicy [("ENVIRONMENT", "development")] =
        ⟨true, true, false, 24, 10, false⟩
    ∧ SecurityPolicyManager.getCurrentPolicy [("ENVIRONMENT", "test")] =
        ⟨true, true, false, 24, 10, false⟩
    ∧ SecurityPolicyManager.getCurrentPolicy [("ENVIRONMENT", "production")] =
        SecurityPolicyManager.getCurrentPolicy cfgScenarioA :=
  ⟨(c9_policy_table [("ENVIRONMENT", "production")]).1 rfl,
   (c9_policy_table [("ENVIRONMENT", "development")]).2.1 rfl,
   (c9_policy_table [("ENVIRONMENT", "test")]).2.2.1 rfl,
   (c9_policy_table [("ENVIRONMENT", "production")]).2.2.2 cfgScenarioA rfl⟩

/-- Claim C10 (confirmed): every `SecretsManager`-sensitive key is
`EnvironmentService`-sensitive (the latter's pattern list adds `auth`,
`private`, `confidential`), the converse fails at `AUTH_MODE`, and hence the
entries kept by `generateEnvironmentHash`'s filter are always a sublist of
those kept by `generateSecureHash`'s filter — equivalently, the excluded set
of the former includes that of the latter. -/
theorem c10_classifier_subsumption :
    (∀ k, SecretsManager.isSensitiveKey k = true →
      EnvironmentService.isSensitiveKey k = true)
    ∧ EnvironmentService.isSensitiveKey "AUTH_MODE" = true
    ∧ SecretsManager.isSensitiveKey "AUTH_MODE" = false
    ∧ (∀ cfg : Config,
      (cfg.filter (fun e => !EnvironmentService.isSensitiveKey e.1)).Sublist
        (cfg.filter (fun e => !SecretsManager.isSensitiveKey e.1))) := by
  refine ⟨secrets_sensitive_imp_env_sensitive, by decide, by decide, ?_⟩
  intro cfg
  refine List.monotone_filter_right cfg ?_
  intro a ha
  have hes : EnvironmentService.isSensitiveKey a.1 = false := by
    simpa using ha
  have hsm : SecretsManager.isSensitiveKey a.1 = false := by
    cases h : SecretsManager.isSensitiveKey a.1
    · rfl
    · exact absurd (secrets_sensitive_imp_env_sensitive a.1 h) (by simp [hes])
  simp [hsm]

/-- Witness for `c10_classifier_subsumption`: the implication discharged at
the `SecretsManager`-sensitive key `DEMO_PASSWORD`, and the sublist fact at a
configuration where the two filters genuinely differ. -/
theorem c10_classifier_subsumption_witness :
    EnvironmentService.isSensitiveKey "DEMO_PASSWORD" = true
    ∧ (([("AUTH_MODE", "x"), ("A", "1")] : Config).filter
        (fun e => !EnvironmentService.isSensitiveKey e.1)).Sublist
      (([("AUTH_MODE", "x"), ("A", "1")] : Config).filter
        (fun e => !SecretsManager.isSensitiveKey e.1)) :=
  ⟨c10_classifier_subsumption.1 "DEMO_PASSWORD" (by decide),
   c10_classifier_subsumption.2.2.2 [("AUTH_MODE", "x"), ("A", "1")]⟩
